import Mathlib

/-
Verification of the bond-fund screening pipeline.

The development embeds the four pipeline stages of the repository:
  src/1.1_get_all_3year_bond_funds.py  (establishment-age stage)
  src/2_buyable_and_cheap.py           (purchase-eligibility stage)
  src/3_Ulcer_and_Martin.py            (risk-scoring stage)
  src/4_revenue.py                     (returns-enrichment stage)

Numeric values flowing through pandas/numpy are modelled exactly: finite
float64 values as rationals, with an explicit four-way type adding the two
infinities and nan where numpy division/power semantics matter.  External
lookups (the akshare network calls) are modelled as oracle parameters, so
theorems can quantify over every behaviour of the data provider.
-/

namespace BondScreen

/-- Model of a numpy float64 scalar: a finite value (kept exact as a
rational), one of the two infinities, or nan.  Signed zero is not modelled;
zero is treated as nonnegative. -/
inductive NpFloat
| fin (q : ℚ)
| inf
| ninf
| nan
deriving DecidableEq

/-- numpy float64 subtraction (never raises). -/
def npSub : NpFloat → NpFloat → NpFloat
| .fin a, .fin b => .fin (a - b)
| .fin _, .inf => .ninf
| .fin _, .ninf => .inf
| .inf, .fin _ => .inf
| .ninf, .fin _ => .ninf
| .inf, .ninf => .inf
| .ninf, .inf => .ninf
| _, _ => .nan

/-- numpy float64 division (never raises: a finite nonzero value divided by
zero yields a signed infinity, zero divided by zero yields nan, with only a
RuntimeWarning emitted). -/
def npDiv : NpFloat → NpFloat → NpFloat
| .fin a, .fin b =>
    if b = 0 then (if a = 0 then .nan else if 0 < a then .inf else .ninf)
    else .fin (a / b)
| .fin _, .inf => .fin 0
| .fin _, .ninf => .fin 0
| .inf, .fin b => if 0 ≤ b then .inf else .ninf
| .ninf, .fin b => if 0 ≤ b then .ninf else .inf
| _, _ => .nan

/-- src/3_Ulcer_and_Martin.py, calculate_martin_ratio: returns
(annualized_return - risk_free_rate) / ulcer_index.  All three arguments are
numpy float64 scalars in the caller (process_fund), so the division follows
numpy semantics. -/
def calculate_martin_ratio (annualized_return risk_free_rate ulcer_index : NpFloat) : NpFloat :=
  npDiv (npSub annualized_return risk_free_rate) ulcer_index

/-- C1 (counterexample): with annualized return 5, risk-free rate 1.5 and an
Ulcer Index of exactly 0, calculate_martin_ratio silently divides and returns
the value positive infinity; it does not fail, contradicting the claim that
the Martin Ratio computation fails whenever the Ulcer Index is 0. -/
theorem martin_ratio_zero_ulcer_counterexample :
    calculate_martin_ratio (.fin 5) (.fin (3/2)) (.fin 0) = NpFloat.inf := by
  norm_num [calculate_martin_ratio, npSub, npDiv]

/-- C1 (amended): when the Ulcer Index is exactly 0, calculate_martin_ratio
does not fail; under numpy float64 semantics it silently divides by zero and
returns positive infinity when the annualized return exceeds the risk-free
rate, negative infinity when it is below it, and nan when the two are
equal. -/
theorem martin_ratio_zero_ulcer_silent (ar rfr : ℚ) :
    calculate_martin_ratio (.fin ar) (.fin rfr) (.fin 0) =
      if rfr < ar then NpFloat.inf else if ar < rfr then NpFloat.ninf else NpFloat.nan := by
  show npDiv (.fin (ar - rfr)) (.fin 0) = _
  rcases lt_trichotomy ar rfr with h | h | h
  · have h1 : ¬ (ar - rfr = 0) := by intro hc; rw [sub_eq_zero] at hc; exact absurd hc (ne_of_lt h)
    have h2 : ¬ (0 < ar - rfr) := by simpa [sub_pos] using not_lt.mpr (le_of_lt h)
    simp [npDiv, h1, h2, h, not_lt.mpr (le_of_lt h)]
  · simp [npDiv, h, sub_eq_zero.mpr h]
  · have h1 : 0 < ar - rfr := sub_pos.mpr h
    simp [npDiv, h1, ne_of_gt h1, h]

/-- src/3_Ulcer_and_Martin.py, calculate_ulcer_index, first line:
cumulative_returns = net_values / net_values.iloc[0].  On an empty series
pandas iloc[0] raises, so the claims about this function assume a non-empty
series; the nil case here is a dead branch. -/
def cumulative_returns : List ℚ → List ℚ
| [] => []
| v0 :: rest => (v0 :: rest).map (fun v => v / v0)

/-- Running-maximum accumulator: m is the maximum of the elements already
seen. -/
def cummaxGo (m : ℚ) : List ℚ → List ℚ
| [] => []
| x :: xs => max m x :: cummaxGo (max m x) xs

/-- pandas Series.cummax: the running maximum of the series. -/
def cummax : List ℚ → List ℚ
| [] => []
| x :: xs => cummaxGo x (x :: xs)

/-- src/3_Ulcer_and_Martin.py, calculate_ulcer_index:
drawdown = (peak - cumulative_returns) / peak, elementwise, where
peak = cumulative_returns.cummax(). -/
def drawdown (net_values : List ℚ) : List ℚ :=
  List.zipWith (fun p v => (p - v) / p)
    (cummax (cumulative_returns net_values)) (cumulative_returns net_values)

/-- pandas Series.mean: sum divided by length. -/
def seriesMean (l : List ℚ) : ℚ := l.sum / l.length

/-- src/3_Ulcer_and_Martin.py, calculate_ulcer_index:
np.sqrt(drawdown_squared.mean()) * 100 where
drawdown_squared = drawdown ** 2 elementwise. -/
noncomputable def calculate_ulcer_index (net_values : List ℚ) : ℝ :=
  Real.sqrt ((seriesMean ((drawdown net_values).map (fun d => d ^ 2)) : ℚ)) * 100

/-- Modelled from the spec words for comparison with the code: the peak at
index i is the running maximum, i.e. the maximum of the first i+1 values of
the normalized series. -/
def specPeak (c : List ℚ) (i : ℕ) : ℚ := (c.take (i + 1)).foldl max (c.headD 0)

/-- Modelled from the spec words for comparison with the code: drawdown at
each point of the normalized series c is (peak - value) / peak with peak the
running maximum at that point. -/
def specDrawdowns (c : List ℚ) : List ℚ :=
  List.zipWith (fun i v => (specPeak c i - v) / specPeak c i) (List.range c.length) c

lemma cummaxGo_eq_map_range :
    ∀ (l : List ℚ) (m : ℚ),
      cummaxGo m l = (List.range l.length).map (fun i => (l.take (i + 1)).foldl max m)
| [], m => by simp [cummaxGo]
| y :: ys, m => by
    rw [cummaxGo, List.length_cons, List.range_succ_eq_map, List.map_cons]
    refine congrArg₂ List.cons (by simp) ?_
    rw [List.map_map, cummaxGo_eq_map_range ys (max m y)]
    refine List.map_congr_left ?_
    intro i _
    simp [List.take_succ_cons]

lemma cummax_eq_spec (c : List ℚ) :
    cummax c = (List.range c.length).map (specPeak c) := by
  cases c with
  | nil => simp [cummax]
  | cons x xs =>
      rw [cummax, cummaxGo_eq_map_range]
      refine List.map_congr_left ?_
      intro i _
      simp [specPeak]

lemma drawdown_eq_specDrawdowns (l : List ℚ) :
    drawdown l = specDrawdowns (cumulative_returns l) := by
  rw [drawdown, specDrawdowns, cummax_eq_spec, List.zipWith_map_left]

lemma cummaxGo_of_chain :
    ∀ (l : List ℚ) (m : ℚ), List.Chain (· ≤ ·) m l → cummaxGo m l = l
| [], _, _ => rfl
| y :: ys, m, h => by
    rcases List.chain_cons.mp h with ⟨hmy, hys⟩
    rw [cummaxGo, max_eq_right hmy, cummaxGo_of_chain ys y hys]

lemma cummax_of_chain : ∀ (l : List ℚ), List.Chain' (· ≤ ·) l → cummax l = l
| [], _ => rfl
| x :: xs, h => by
    have hx : List.Chain (· ≤ ·) x (x :: xs) := List.Chain.cons le_rfl h
    rw [cummax, cummaxGo_of_chain (x :: xs) x hx]

lemma zipWith_sub_div_self :
    ∀ c : List ℚ, List.zipWith (fun p v => (p - v) / p) c c = c.map (fun _ => (0 : ℚ))
| [] => rfl
| x :: xs => by
    rw [List.zipWith_cons_cons, List.map_cons, zipWith_sub_div_self xs]
    simp

/-- C5: for every non-empty, positive, monotonically non-decreasing net-value
series, the Ulcer Index is exactly 0: the normalized series is
non-decreasing, so the running peak equals the series, every drawdown is 0,
and sqrt of the zero mean is 0. -/
theorem ulcer_index_monotone_zero (l : List ℚ) (hne : l ≠ [])
    (hpos : ∀ x ∈ l, 0 < x) (hmono : List.Chain' (· ≤ ·) l) :
    calculate_ulcer_index l = 0 := by
  obtain ⟨v0, rest, rfl⟩ := List.exists_cons_of_ne_nil hne
  have hv0 : 0 < v0 := hpos v0 (List.mem_cons_self v0 rest)
  have hchain : List.Chain' (· ≤ ·) (cumulative_returns (v0 :: rest)) := by
    rw [cumulative_returns, List.chain'_map]
    refine hmono.imp ?_
    intro a b hab
    have h := mul_le_mul_of_nonneg_right hab (inv_nonneg.mpr hv0.le)
    simpa [div_eq_mul_inv] using h
  rw [calculate_ulcer_index, drawdown, cummax_of_chain _ hchain, zipWith_sub_div_self]
  simp [seriesMean, List.map_map, Function.comp]

/-- C5 (witness): the claim instantiated at the series 1.0, 1.0, 1.1, 1.2,
whose Ulcer Index is 0. -/
theorem ulcer_index_monotone_zero_witness :
    List.Chain' (· ≤ ·) [(1 : ℚ), 1, 11/10, 6/5] ∧
      calculate_ulcer_index [(1 : ℚ), 1, 11/10, 6/5] = 0 := by
  have h1 : ([(1 : ℚ), 1, 11/10, 6/5] : List ℚ) ≠ [] := by simp
  have h2 : ∀ x ∈ [(1 : ℚ), 1, 11/10, 6/5], 0 < x := by
    intro x hx
    simp only [List.mem_cons, List.not_mem_nil, or_false] at hx
    rcases hx with rfl | rfl | rfl | rfl <;> norm_num
  have h3 : List.Chain' (· ≤ ·) [(1 : ℚ), 1, 11/10, 6/5] := by
    refine List.chain'_cons.mpr ⟨le_rfl, List.chain'_cons.mpr ⟨by norm_num, ?_⟩⟩
    exact List.chain'_cons.mpr ⟨by norm_num, List.chain'_singleton _⟩
  exact ⟨h3, ulcer_index_monotone_zero _ h1 h2 h3⟩

lemma cumulative_returns_smul (l : List ℚ) (c : ℚ) (hc : c ≠ 0) :
    cumulative_returns (l.map (fun v => c * v)) = cumulative_returns l := by
  cases l with
  | nil => rfl
  | cons v0 rest =>
      rw [List.map_cons, cumulative_returns, cumulative_returns, ← List.map_cons,
        List.map_map]
      refine List.map_congr_left ?_
      intro a _
      simp only [Function.comp_apply]
      exact mul_div_mul_left a v0 hc

/-- C10: the Ulcer Index is scale-invariant: multiplying every net value by a
positive constant does not change it, because the series is normalized by its
first value before drawdowns are computed. -/
theorem ulcer_index_scale_invariant (l : List ℚ) (c : ℚ) (hne : l ≠ [])
    (hpos : ∀ x ∈ l, 0 < x) (hc : 0 < c) :
    calculate_ulcer_index (l.map (fun v => c * v)) = calculate_ulcer_index l := by
  rw [calculate_ulcer_index, calculate_ulcer_index, drawdown, drawdown,
    cumulative_returns_smul l c (ne_of_gt hc)]

/-- C10 (witness): scale invariance instantiated with the series 1, 0.5, 1
and the scalar 2. -/
theorem ulcer_index_scale_invariant_witness :
    (0 : ℚ) < 2 ∧
      calculate_ulcer_index ([(1 : ℚ), 1/2, 1].map (fun v => 2 * v)) =
        calculate_ulcer_index [(1 : ℚ), 1/2, 1] := by
  refine ⟨by norm_num, ulcer_index_scale_invariant _ 2 (by simp) ?_ (by norm_num)⟩
  intro x hx
  simp only [List.mem_cons, List.not_mem_nil, or_false] at hx
  rcases hx with rfl | rfl | rfl <;> norm_num

/-- C4: for every non-empty positive net-value series, the Ulcer Index is
sqrt(mean(drawdown squared)) times 100, where the series is first normalized
by its first value, the peak at each index is the running maximum of the
normalized series, and the drawdown is (peak - value) / peak; and on the
series 1.0, 0.5, 1.0 the intermediate series are as the spec states and the
result sqrt(1/12) times 100 lies strictly between 28.86 and 28.88. -/
theorem ulcer_index_formula_and_example :
    (∀ l : List ℚ, l ≠ [] → (∀ x ∈ l, 0 < x) →
        calculate_ulcer_index l =
          Real.sqrt ((seriesMean ((specDrawdowns (cumulative_returns l)).map
            (fun d => d ^ 2)) : ℚ)) * 100) ∧
      cummax (cumulative_returns [(1 : ℚ), 1/2, 1]) = [1, 1, 1] ∧
      drawdown [(1 : ℚ), 1/2, 1] = [0, 1/2, 0] ∧
      (drawdown [(1 : ℚ), 1/2, 1]).map (fun d => d ^ 2) = [0, 1/4, 0] ∧
      seriesMean ((drawdown [(1 : ℚ), 1/2, 1]).map (fun d => d ^ 2)) = 1/12 ∧
      calculate_ulcer_index [(1 : ℚ), 1/2, 1] = Real.sqrt (1/12) * 100 ∧
      2886/100 < calculate_ulcer_index [(1 : ℚ), 1/2, 1] ∧
      calculate_ulcer_index [(1 : ℚ), 1/2, 1] < 2888/100 := by
  have hcum : cumulative_returns [(1 : ℚ), 1/2, 1] = [1, 1/2, 1] := by
    rw [cumulative_returns]
    norm_num
  have hmax : cummax (cumulative_returns [(1 : ℚ), 1/2, 1]) = [1, 1, 1] := by
    rw [hcum, cummax, cummaxGo, cummaxGo, cummaxGo, cummaxGo]
    norm_num
  have hdd : drawdown [(1 : ℚ), 1/2, 1] = [0, 1/2, 0] := by
    rw [drawdown, hmax, hcum]
    norm_num
  have hsq : (drawdown [(1 : ℚ), 1/2, 1]).map (fun d => d ^ 2) = [0, 1/4, 0] := by
    rw [hdd]
    norm_num
  have hmean : seriesMean ((drawdown [(1 : ℚ), 1/2, 1]).map (fun d => d ^ 2)) = 1/12 := by
    rw [hsq, seriesMean]
    norm_num
  have hval : calculate_ulcer_index [(1 : ℚ), 1/2, 1] = Real.sqrt (1/12) * 100 := by
    rw [calculate_ulcer_index, hmean]
    norm_num
  have hs2 : Real.sqrt (1/12) ^ 2 = 1/12 := Real.sq_sqrt (by norm_num)
  have hs0 : 0 ≤ Real.sqrt (1/12) := Real.sqrt_nonneg _
  refine ⟨?_, hmax, hdd, hsq, hmean, hval, ?_, ?_⟩
  · intro l _ _
    rw [calculate_ulcer_index, drawdown_eq_specDrawdowns]
  · rw [hval]
    have h : (2886/10000 : ℝ) < Real.sqrt (1/12) := by
      rw [Real.lt_sqrt (by norm_num)]
      norm_num
    linarith
  · rw [hval]
    have h : Real.sqrt (1/12) < (2888/10000 : ℝ) := by
      rw [Real.sqrt_lt' (by norm_num)]
      norm_num
    linarith

/-- C4 (witness): the general formula conjunct instantiated on the concrete
positive series 2, 1, 2. -/
theorem ulcer_index_formula_and_example_witness :
    calculate_ulcer_index [(2 : ℚ), 1, 2] =
      Real.sqrt ((seriesMean ((specDrawdowns (cumulative_returns [(2 : ℚ), 1, 2])).map
        (fun d => d ^ 2)) : ℚ)) * 100 := by
  refine ulcer_index_formula_and_example.1 [(2 : ℚ), 1, 2] (by simp) ?_
  intro x hx
  simp only [List.mem_cons, List.not_mem_nil, or_false] at hx
  rcases hx with rfl | rfl | rfl <;> norm_num

section AnnualizedReturn

open scoped Classical

/-- Model of a numpy float64 value for the annualized-return computation.
Finite values live in ℝ because the float power operation produces
irrational values. -/
inductive NpReal
| fin (x : ℝ)
| inf
| ninf
| nan

/-- numpy float64 subtraction over the real-valued model. -/
noncomputable def npRsub : NpReal → NpReal → NpReal
| .fin a, .fin b => .fin (a - b)
| .fin _, .inf => .ninf
| .fin _, .ninf => .inf
| .inf, .fin _ => .inf
| .ninf, .fin _ => .ninf
| .inf, .ninf => .inf
| .ninf, .inf => .ninf
| _, _ => .nan

/-- numpy float64 multiplication over the real-valued model. -/
noncomputable def npRmul : NpReal → NpReal → NpReal
| .fin a, .fin b => .fin (a * b)
| .fin b, .inf => if 0 < b then .inf else if b = 0 then .nan else .ninf
| .fin b, .ninf => if 0 < b then .ninf else if b = 0 then .nan else .inf
| .inf, .fin b => if 0 < b then .inf else if b = 0 then .nan else .ninf
| .ninf, .fin b => if 0 < b then .ninf else if b = 0 then .nan else .inf
| .inf, .inf => .inf
| .inf, .ninf => .ninf
| .ninf, .inf => .ninf
| .ninf, .ninf => .inf
| _, _ => .nan

/-- numpy float64 division over the real-valued model (never raises; a
finite nonzero value divided by zero yields a signed infinity with only a
RuntimeWarning). -/
noncomputable def npRdiv : NpReal → NpReal → NpReal
| .fin a, .fin b =>
    if b = 0 then (if a = 0 then .nan else if 0 < a then .inf else .ninf)
    else .fin (a / b)
| .fin _, .inf => .fin 0
| .fin _, .ninf => .fin 0
| .inf, .fin b => if 0 ≤ b then .inf else .ninf
| .ninf, .fin b => if 0 ≤ b then .ninf else .inf
| _, _ => .nan

/-- numpy float64 power over the real-valued model.  A positive base uses the
real power function; a zero base with negative exponent yields infinity with
only a RuntimeWarning; a negative base yields nan unless the exponent is
integral.  Arms with an infinite operand are not exercised by the pipeline
and carry the magnitude of the numpy result; the sign of odd powers of
negative infinity is not modelled. -/
noncomputable def npRpow : NpReal → NpReal → NpReal
| .fin b, .fin e =>
    if 0 < b then .fin (b ^ e)
    else if b = 0 then (if 0 < e then .fin 0 else if e = 0 then .fin 1 else .inf)
    else if h : ∃ n : ℤ, (n : ℝ) = e then .fin (b ^ h.choose) else .nan
| .fin b, .inf => if 1 < |b| then .inf else if |b| = 1 then .fin 1 else .fin 0
| .fin b, .ninf => if 1 < |b| then .fin 0 else if |b| = 1 then .fin 1 else .inf
| .inf, .fin e => if 0 < e then .inf else if e = 0 then .fin 1 else .fin 0
| .ninf, .fin e => if 0 < e then .inf else if e = 0 then .fin 1 else .fin 0
| .inf, .inf => .inf
| .inf, .ninf => .fin 0
| .ninf, .inf => .inf
| .ninf, .ninf => .fin 0
| .nan, .fin e => if e = 0 then .fin 1 else .nan
| _, _ => .nan

/-- src/3_Ulcer_and_Martin.py, calculate_annualized_return.  Dates are
modelled as absolute day numbers, so years = (end_date - start_date).days /
365 is the rational (end_date - start_date) / 365.  years is a plain Python
float, so the subexpression 1 / years raises ZeroDivisionError exactly when
years is zero; every other operation acts on numpy float64 scalars
(pandas iloc values) and never raises.  iloc[0] on an empty series raises
IndexError. -/
noncomputable def calculate_annualized_return (net_values : List ℚ)
    (start_date end_date : ℤ) : Except String NpReal :=
  match net_values with
  | [] => .error ("IndexError")
  | v0 :: rest =>
      if (((end_date - start_date : ℤ) : ℚ) / 365) = 0 then
        .error ("ZeroDivisionError")
      else
        .ok (npRmul
          (npRsub
            (npRpow
              (npRdiv (.fin (((v0 :: rest).getLast (List.cons_ne_nil v0 rest) : ℚ) : ℝ))
                (.fin ((v0 : ℚ) : ℝ)))
              (.fin (((1 : ℚ) / (((end_date - start_date : ℤ) : ℚ) / 365) : ℚ) : ℝ)))
            (.fin 1))
          (.fin 100))

end AnnualizedReturn

/-- C2 (amended): on a non-empty series the annualized-return computation
raises only when years = (end_date - start_date) / 365 is exactly zero,
where the Python expression 1/years raises ZeroDivisionError; for every
other window, including windows with years < 0 and series with
start_value ≤ 0, it silently returns a numpy float64 value (possibly
infinite or nan) instead of failing. -/
theorem annualized_return_error_iff_years_zero (v0 : ℚ) (rest : List ℚ)
    (start_date end_date : ℤ) :
    ((((end_date - start_date : ℤ) : ℚ) / 365) = 0 →
        calculate_annualized_return (v0 :: rest) start_date end_date =
          .error ("ZeroDivisionError")) ∧
      ((((end_date - start_date : ℤ) : ℚ) / 365) ≠ 0 →
        ∃ v : NpReal,
          calculate_annualized_return (v0 :: rest) start_date end_date = .ok v) := by
  constructor
  · intro h
    simp only [calculate_annualized_return]
    rw [if_pos h]
  · intro h
    simp only [calculate_annualized_return, if_neg h]
    exact ⟨_, rfl⟩

/-- C2 (witness): with series [1, 1.05] over a 365-day window, years = 1 is
nonzero and the computation returns a value. -/
theorem annualized_return_error_iff_years_zero_witness :
    ((((365 : ℤ) - 0 : ℤ) : ℚ) / 365) ≠ 0 ∧
      ∃ v : NpReal, calculate_annualized_return [(1 : ℚ), 21/20] 0 365 = .ok v := by
  have h : ((((365 : ℤ) - 0 : ℤ) : ℚ) / 365) ≠ 0 := by norm_num
  exact ⟨h, (annualized_return_error_iff_years_zero 1 [21/20] 0 365).2 h⟩

/-- C2 (counterexample): with series [1, 2] and a window whose end date
precedes its start date by 365 days, years = -1 satisfies years ≤ 0, yet
calculate_annualized_return silently returns the finite value -50 instead of
failing: (2/1) ** (1/(-1)) = 1/2 and (1/2 - 1) * 100 = -50. -/
theorem annualized_return_negative_years_counterexample :
    ((((0 : ℤ) - 365 : ℤ) : ℚ) / 365) ≤ 0 ∧
      calculate_annualized_return [(1 : ℚ), 2] 365 0 = .ok (.fin (-50)) := by
  refine ⟨by norm_num, ?_⟩
  have hy : ((((0 : ℤ) - 365 : ℤ) : ℚ) / 365) ≠ 0 := by norm_num
  simp only [calculate_annualized_return]
  rw [if_neg hy]
  have hL : ([(1 : ℚ), 2].getLast (List.cons_ne_nil 1 [2])) = 2 := rfl
  rw [hL]
  have hdiv : npRdiv (.fin (((2 : ℚ) : ℝ))) (.fin (((1 : ℚ) : ℝ))) = .fin 2 := by
    simp only [npRdiv]
    norm_num
  rw [hdiv]
  have he : (((1 : ℚ) / ((((0 : ℤ) - 365 : ℤ) : ℚ) / 365) : ℚ) : ℝ) = (-1 : ℝ) := by
    norm_num
  rw [he]
  have hpow : npRpow (.fin 2) (.fin (-1 : ℝ)) = .fin (1/2) := by
    simp only [npRpow]
    rw [if_pos (by norm_num : (0 : ℝ) < 2), Real.rpow_neg_one]
    norm_num
  rw [hpow]
  have hsub : npRsub (.fin ((1 : ℝ)/2)) (.fin 1) = .fin (-(1/2)) := by
    simp only [npRsub]
    norm_num
  rw [hsub]
  simp only [npRmul]
  norm_num

/-- Error record of src/1.1_get_all_3year_bond_funds.py: a dict holding the
fund code, the fund name and the stringified exception.  The dict always has
these three keys, so it is truthy whenever it is produced. -/
structure ErrorRecord where
  code : String
  name : String
  errMsg : String
deriving DecidableEq

/-- Outcome of the per-candidate lookup in the establishment-age stage
(ak.fund_individual_basic_info_xq plus the extraction of the establishment
date).  raises covers both a failing network call and an unparsable date;
missingRow is the row lookup coming back empty, which check_fund_establishment
turns into a ValueError caught by its own handler; established carries the
parsed establishment date as an absolute day number. -/
inductive EstablishLookup
| raises (msg : String)
| missingRow
| established (date : ℤ)

/-- src/1.1_get_all_3year_bond_funds.py, check_fund_establishment: maps the
lookup outcome for one candidate to the pair (valid_code, error_record)
returned to the collection loop. -/
def check_fund_establishment (fund_code fund_name : String) (three_years_ago : ℤ)
    (lookup : EstablishLookup) : Option String × Option ErrorRecord :=
  match lookup with
  | .raises msg => (none, some ⟨fund_code, fund_name, msg⟩)
  | .missingRow => (none, some ⟨fund_code, fund_name, ("未找到'成立时间'字段")⟩)
  | .established d =>
      if d ≤ three_years_ago then (some fund_code, none) else (none, none)

/-- Python truthiness of the valid_code slot: None and the empty string are
falsy, every other string is truthy. -/
def truthyStr : Option String → Bool
| some s => s ≠ ""
| none => false

/-- Python truthiness of the error_record slot: None is falsy and the
produced three-key dict is truthy. -/
def truthyRec : Option ErrorRecord → Bool
| some _ => true
| none => false

/-- The as_completed collection loop of get_valid_bond_funds: for each result
it appends to valid_codes when the valid_code slot is truthy and appends to
error_records when the error_record slot is truthy.  The loop appends in
completion order; this recursion builds the same multisets. -/
def collectResults :
    List (Option String × Option ErrorRecord) → List String × List ErrorRecord
| [] => ([], [])
| r :: rest =>
    let acc := collectResults rest
    ((if truthyStr r.1 then r.1.getD ("") :: acc.1 else acc.1),
     (if truthyRec r.2 then r.2.getD ⟨"", "", ""⟩ :: acc.2 else acc.2))

/-- Results that land in neither list: the candidate was looked up but was
filtered out (or its code was falsy). -/
def filtered_out (rs : List (Option String × Option ErrorRecord)) :
    List (Option String × Option ErrorRecord) :=
  rs.filter (fun r => !truthyStr r.1 && !truthyRec r.2)

lemma collectResults_partition :
    ∀ rs : List (Option String × Option ErrorRecord),
      (∀ r ∈ rs, ¬(truthyStr r.1 = true ∧ truthyRec r.2 = true)) →
      (collectResults rs).1.length + (collectResults rs).2.length +
        (filtered_out rs).length = rs.length
| [], _ => rfl
| r :: rest, h => by
    have hrec := collectResults_partition rest (fun x hx => h x (List.mem_cons_of_mem r hx))
    have hr := h r (List.mem_cons_self r rest)
    rcases r with ⟨oc, oe⟩
    simp only [filtered_out] at hrec
    rcases hc : truthyStr oc <;> rcases he : truthyRec oe
    · simp only [collectResults, filtered_out, List.filter_cons, hc, he,
        Bool.not_false, Bool.and_self, if_true, Bool.false_eq_true, if_false,
        List.length_cons]
      omega
    · simp only [collectResults, filtered_out, List.filter_cons, hc, he,
        Bool.not_false, Bool.not_true, Bool.false_and, Bool.and_false,
        Bool.false_eq_true, if_false, if_true, List.length_cons]
      omega
    · simp only [collectResults, filtered_out, List.filter_cons, hc, he,
        Bool.not_false, Bool.not_true, Bool.true_and, Bool.and_false,
        Bool.false_and, Bool.false_eq_true, if_false, if_true, List.length_cons]
      omega
    · exact absurd ⟨hc, he⟩ hr

/-- C3: in the establishment-age stage, for every candidate set, every
behaviour of the per-candidate lookup, and every completion order, the number
of surviving codes plus the number of error records plus the number of
filtered-out candidates equals the number of input candidates: each result of
check_fund_establishment lands in exactly one of the three buckets. -/
theorem establishment_stage_partition (cands order : List (String × String))
    (oracle : String × String → EstablishLookup) (three_years_ago : ℤ)
    (hperm : order.Perm cands) :
    (collectResults (order.map
        (fun c => check_fund_establishment c.1 c.2 three_years_ago (oracle c)))).1.length +
      (collectResults (order.map
        (fun c => check_fund_establishment c.1 c.2 three_years_ago (oracle c)))).2.length +
      (filtered_out (order.map
        (fun c => check_fund_establishment c.1 c.2 three_years_ago (oracle c)))).length =
      cands.length := by
  have hexc : ∀ r ∈ order.map
      (fun c => check_fund_establishment c.1 c.2 three_years_ago (oracle c)),
      ¬(truthyStr r.1 = true ∧ truthyRec r.2 = true) := by
    intro r hr
    rcases List.mem_map.mp hr with ⟨c, _, rfl⟩
    cases hl : oracle c with
    | raises msg => simp [check_fund_establishment, truthyStr]
    | missingRow => simp [check_fund_establishment, truthyStr]
    | established d =>
        rcases le_or_lt d three_years_ago with hle | hlt
        · simp [check_fund_establishment, truthyRec, if_pos hle]
        · simp [check_fund_establishment, truthyStr, if_neg (not_le.mpr hlt)]
  rw [collectResults_partition _ hexc, List.length_map]
  exact hperm.length_eq

/-- C3 (witness): the partition equation instantiated on two concrete
candidates, one surviving and one erroring, processed in reversed completion
order. -/
theorem establishment_stage_partition_witness :
    ([(("000002" : String), ("B" : String)), (("000001" : String), ("A" : String))].Perm
        [(("000001" : String), ("A" : String)), (("000002" : String), ("B" : String))]) ∧
      (collectResults ([(("000002" : String), ("B" : String)),
          (("000001" : String), ("A" : String))].map
          (fun c => check_fund_establishment c.1 c.2 0
            (if c.1 = "000001" then EstablishLookup.established (-1)
             else EstablishLookup.raises ("boom"))))).1.length +
        (collectResults ([(("000002" : String), ("B" : String)),
          (("000001" : String), ("A" : String))].map
          (fun c => check_fund_establishment c.1 c.2 0
            (if c.1 = "000001" then EstablishLookup.established (-1)
             else EstablishLookup.raises ("boom"))))).2.length +
        (filtered_out ([(("000002" : String), ("B" : String)),
          (("000001" : String), ("A" : String))].map
          (fun c => check_fund_establishment c.1 c.2 0
            (if c.1 = "000001" then EstablishLookup.established (-1)
             else EstablishLookup.raises ("boom"))))).length = 2 := by
  have hperm : ([(("000002" : String), ("B" : String)),
      (("000001" : String), ("A" : String))].Perm
      [(("000001" : String), ("A" : String)), (("000002" : String), ("B" : String))]) :=
    List.Perm.swap _ _ _
  exact ⟨hperm, establishment_stage_partition _ _
    (fun c => if c.1 = "000001" then EstablishLookup.established (-1)
      else EstablishLookup.raises ("boom")) 0 hperm⟩

/-- Net-value payload of one risk-series fetch: a list of (date, cumulative
net value) rows. -/
abbrev FundData := List (ℤ × ℚ)

/-- The for-attempt-in-range loop body of get_fund_data: walks the attempt
indices, invokes the lookup once per iteration, stops at the first success.
Returns the result together with the number of invocations made. -/
def getFundDataLoop (fetch : ℕ → Except String FundData) :
    List ℕ → Option FundData × ℕ
| [] => (none, 0)
| attempt :: rest =>
    match fetch attempt with
    | .ok d => (some d, 1)
    | .error _ =>
        let acc := getFundDataLoop fetch rest
        (acc.1, acc.2 + 1)

/-- src/3_Ulcer_and_Martin.py, get_fund_data: retries the akshare net-value
lookup over attempt indices range(max_retries) and returns None when every
attempt raises.  The source default is max_retries = 3 (retry_delay only
sleeps and is not modelled). -/
def get_fund_data (fetch : ℕ → Except String FundData) (max_retries : ℕ) :
    Option FundData × ℕ :=
  getFundDataLoop fetch (List.range max_retries)

/-- C6: if the underlying lookup raises on every invocation, get_fund_data
with the default max_retries = 3 invokes it exactly three times and then
returns None instead of raising. -/
theorem get_fund_data_three_attempts (fetch : ℕ → Except String FundData)
    (hfail : ∀ i, ∃ e, fetch i = .error e) :
    get_fund_data fetch 3 = (none, 3) := by
  obtain ⟨e0, h0⟩ := hfail 0
  obtain ⟨e1, h1⟩ := hfail 1
  obtain ⟨e2, h2⟩ := hfail 2
  have hr : List.range 3 = [0, 1, 2] := rfl
  rw [get_fund_data, hr, getFundDataLoop, h0]
  rw [getFundDataLoop, h1, getFundDataLoop, h2, getFundDataLoop]

/-- C6 (witness): a lookup that raises on every invocation is attempted
exactly three times. -/
theorem get_fund_data_three_attempts_witness :
    get_fund_data (fun _ => .error ("boom")) 3 = (none, 3) :=
  get_fund_data_three_attempts (fun _ => .error ("boom"))
    (fun _ => ⟨"boom", rfl⟩)

/-- A pandas cell that is either numeric (float64, kept exact) or a string. -/
inductive PyCell
| num (q : ℚ)
| str (s : String)
deriving DecidableEq

/-- Parse a string as a nonnegative integer literal: all characters must be
digits and there must be at least one. -/
def parseNatLit (s : String) : Option ℚ :=
  if s.data ≠ [] ∧ s.data.all Char.isDigit then
    some ((s.data.foldl (fun n c => 10 * n + (c.toNat - 48)) 0 : ℕ) : ℚ)
  else none

/-- pd.to_numeric with coercion of errors: numeric cells pass through;
string cells parse as nonnegative integer literals (the purchase minimums in
the reference table are plain numbers) and everything else, such as the
placeholder 未查询到, coerces to NaN, modelled as none. -/
def pdToNumericCoerce : PyCell → Option ℚ
| .num q => some q
| .str s => parseNatLit s

/-- zfill(6): left-pad the fund code with zeros to width 6. -/
def zfill6 (s : String) : String :=
  if s.length < 6 then String.mk (List.replicate (6 - s.length) '0') ++ s else s

/-- One row of the pre-fetched ak.fund_purchase_em reference table, and also
the shape of the dict built by query_fund_info: fund code, fund name,
purchase status, purchase minimum. -/
structure PurchaseRow where
  code : String
  name : String
  status : String
  minBuy : PyCell
deriving DecidableEq

/-- src/2_buyable_and_cheap.py, query_fund_info: a local lookup against the
pre-fetched reference table.  A code present in the table yields its row's
fields; an absent code yields a placeholder record with 未查询到 in every
field (and only a printed message, no error record). -/
def query_fund_info (code : String) (all_fund_data : List PurchaseRow) : PurchaseRow :=
  match all_fund_data.find? (fun r => r.code == zfill6 code) with
  | some r => ⟨zfill6 code, r.name, r.status, r.minBuy⟩
  | none => ⟨zfill6 code, "未查询到", "未查询到", .str ("未查询到")⟩

/-- The purchase-minimum filter of query_fund_purchase_status:
merged_df["购买起点"] is coerced with pd.to_numeric(errors coerced to NaN)
and rows with value ≤ 1000 are kept; a NaN comparison is False, so
non-numeric rows are dropped. -/
def minBuyOK (r : PurchaseRow) : Bool :=
  match pdToNumericCoerce r.minBuy with
  | some q => decide (q ≤ 1000)
  | none => false

/-- The status filter of query_fund_purchase_status: rows whose 申购状态 is
封闭期 or 暂停申购 are dropped. -/
def statusOK (r : PurchaseRow) : Bool :=
  !(["封闭期", "暂停申购"].contains r.status)

/-- src/2_buyable_and_cheap.py, query_fund_purchase_status, filtering part:
each input code is looked up with query_fund_info, then the purchase-minimum
filter and the status filter are applied in that order.  The persisted rows
are exactly the survivors (the stage writes no error records). -/
def query_fund_purchase_status (fund_codes : List String)
    (all_fund_data : List PurchaseRow) : List PurchaseRow :=
  ((fund_codes.map (fun c => query_fund_info c all_fund_data)).filter
    minBuyOK).filter statusOK

lemma minBuyOK_iff (r : PurchaseRow) :
    minBuyOK r = true ↔ ∃ q, pdToNumericCoerce r.minBuy = some q ∧ q ≤ 1000 := by
  rw [minBuyOK]
  rcases h : pdToNumericCoerce r.minBuy with _ | q <;> simp [h]

lemma statusOK_iff (r : PurchaseRow) :
    statusOK r = true ↔ r.status ∉ ["封闭期", "暂停申购"] := by
  simp [statusOK]

/-- C7: a candidate row appears in the persisted output of the
purchase-eligibility stage exactly when it is the lookup result of an input
code, its status is not 封闭期 or 暂停申购, and its purchase minimum parses
to a number ≤ 1000; in particular a row with a non-numeric purchase minimum
is excluded (and the stage produces no error record for it). -/
theorem purchase_stage_membership (fund_codes : List String)
    (all_fund_data : List PurchaseRow) (r : PurchaseRow) :
    (r ∈ query_fund_purchase_status fund_codes all_fund_data ↔
        (∃ c ∈ fund_codes, query_fund_info c all_fund_data = r) ∧
          r.status ∉ ["封闭期", "暂停申购"] ∧
          ∃ q, pdToNumericCoerce r.minBuy = some q ∧ q ≤ 1000) ∧
      (pdToNumericCoerce r.minBuy = none →
        r ∉ query_fund_purchase_status fund_codes all_fund_data) := by
  have hmem : r ∈ query_fund_purchase_status fund_codes all_fund_data ↔
      (∃ c ∈ fund_codes, query_fund_info c all_fund_data = r) ∧
        r.status ∉ ["封闭期", "暂停申购"] ∧
        ∃ q, pdToNumericCoerce r.minBuy = some q ∧ q ≤ 1000 := by
    rw [query_fund_purchase_status]
    simp only [List.mem_filter, List.mem_map, statusOK_iff, minBuyOK_iff]
    tauto
  refine ⟨hmem, ?_⟩
  intro hnone hr
  rcases (hmem.mp hr).2.2 with ⟨q, hq, _⟩
  rw [hnone] at hq
  exact Option.noConfusion hq

/-- C7 (witness): with a one-row table whose purchase minimum is the
non-numeric string 无, the looked-up row is excluded from the output. -/
theorem purchase_stage_membership_witness :
    pdToNumericCoerce (query_fund_info ("000001")
        [⟨"000001", "A", "开放申购", .str ("无")⟩]).minBuy = none ∧
      query_fund_info ("000001") [⟨"000001", "A", "开放申购", .str ("无")⟩] ∉
        query_fund_purchase_status [("000001")]
          [⟨"000001", "A", "开放申购", .str ("无")⟩] := by
  have hnone : pdToNumericCoerce (query_fund_info ("000001")
      [⟨"000001", "A", "开放申购", .str ("无")⟩]).minBuy = none := by
    have hq : query_fund_info ("000001") [⟨"000001", "A", "开放申购", .str ("无")⟩] =
        ⟨"000001", "A", "开放申购", .str ("无")⟩ := by
      rw [query_fund_info]
      rfl
    rw [hq]
    show parseNatLit ("无") = none
    decide
  exact ⟨hnone, (purchase_stage_membership [("000001")]
    [⟨"000001", "A", "开放申购", .str ("无")⟩] _).2 hnone⟩

/-- C9: a fund code absent from the pre-fetched reference table is not
reported as an error: query_fund_info returns the placeholder record with
未查询到 in every field, the numeric coercion of its purchase minimum is NaN,
and the placeholder row is excluded from the persisted output for every input
candidate list. -/
theorem missing_code_placeholder_excluded (code : String)
    (all_fund_data : List PurchaseRow)
    (habsent : zfill6 code ∉ all_fund_data.map PurchaseRow.code) :
    query_fund_info code all_fund_data =
        ⟨zfill6 code, "未查询到", "未查询到", .str ("未查询到")⟩ ∧
      pdToNumericCoerce (query_fund_info code all_fund_data).minBuy = none ∧
      ∀ fund_codes : List String,
        query_fund_info code all_fund_data ∉
          query_fund_purchase_status fund_codes all_fund_data := by
  have hfind : all_fund_data.find? (fun r => r.code == zfill6 code) = none := by
    rw [List.find?_eq_none]
    intro r hr
    intro hbeq
    exact absurd (List.mem_map.mpr ⟨r, hr, beq_iff_eq.mp hbeq⟩) habsent
  have hq : query_fund_info code all_fund_data =
      ⟨zfill6 code, "未查询到", "未查询到", .str ("未查询到")⟩ := by
    rw [query_fund_info, hfind]
  have hnan : pdToNumericCoerce (query_fund_info code all_fund_data).minBuy = none := by
    rw [hq]
    show parseNatLit ("未查询到") = none
    decide
  refine ⟨hq, hnan, ?_⟩
  intro fund_codes hin
  rw [query_fund_purchase_status, List.mem_filter, List.mem_filter] at hin
  have hmin := hin.1.2
  rw [minBuyOK, hnan] at hmin
  exact absurd hmin (by simp)

/-- C9 (witness): the placeholder exclusion instantiated with the code 1
(zfilled to 000001) and a table holding only the unrelated code 000002. -/
theorem missing_code_placeholder_excluded_witness :
    (zfill6 ("1") ∉ ([⟨"000002", "B", "开放申购", .num 10⟩] :
        List PurchaseRow).map PurchaseRow.code) ∧
      query_fund_info ("1") [⟨"000002", "B", "开放申购", .num 10⟩] ∉
        query_fund_purchase_status [("1")] [⟨"000002", "B", "开放申购", .num 10⟩] := by
  have habsent : zfill6 ("1") ∉ ([⟨"000002", "B", "开放申购", .num 10⟩] :
      List PurchaseRow).map PurchaseRow.code := by
    intro h
    simp only [List.map_cons, List.map_nil, List.mem_cons, List.not_mem_nil,
      or_false] at h
    exact absurd h (by decide)
  exact ⟨habsent, (missing_code_placeholder_excluded ("1")
    [⟨"000002", "B", "开放申购", .num 10⟩] habsent).2.2 [("1")]⟩

/-- One row of the ak.fund_individual_achievement_xq payload: performance
type (业绩类型), period label (周期), interval return (本产品区间收益). -/
structure AchRow where
  perfType : String
  period : String
  value : ℚ
deriving DecidableEq

/-- A cell appended to the returns columns: a numeric return, Python None
(the success path when the period row is absent), or a sentinel string. -/
inductive RetCell
| num (q : ℚ)
| pyNone
| msg (s : String)
deriving DecidableEq

/-- The success-path extraction of src/4_revenue.py: the first payload row
matching 业绩类型 equal to 阶段业绩 and 周期 equal to the requested period
yields its 本产品区间收益; an empty match yields Python None. -/
def extractRet (fund_data : List AchRow) (period : String) : RetCell :=
  match fund_data.find? (fun r => r.perfType == "阶段业绩" && r.period == period) with
  | some r => .num r.value
  | none => .pyNone

/-- The KeyError-compatibility extraction of src/4_revenue.py: the raw-record
scan overwrites the slot on every match, so the last matching row wins; no
match yields the sentinel 未找到数据. -/
def extractRetCompat (records : List AchRow) (period : String) : RetCell :=
  match (records.filter
      (fun r => r.perfType == "阶段业绩" && r.period == period)).getLast? with
  | some r => .num r.value
  | none => .msg ("未找到数据")

/-- Outcome of the achievement lookup for one fund code, covering the branch
structure of the per-code try/except in query_fund_returns: ok is a payload
returned without error; keyError is a KeyError with the outcome of the
compatibility re-fetch (none when it raises too); requestError is a network
RequestException with the outcome of the single retry (none when it raises
too); otherError is any other exception. -/
inductive AchFetch
| ok (fund_data : List AchRow)
| keyError (second : Option (List AchRow))
| requestError (retry : Option (List AchRow))
| otherError

/-- The per-code body of query_fund_returns: produces the pair of cells
appended to returns_1y and returns_3m.  Every branch appends exactly one cell
to each list. -/
def processReturns : AchFetch → RetCell × RetCell
| .ok d => (extractRet d ("近1年"), extractRet d ("近3月"))
| .keyError (some d) => (extractRetCompat d ("近1年"), extractRetCompat d ("近3月"))
| .keyError none => (.msg ("查询失败"), .msg ("查询失败"))
| .requestError (some d) => (extractRet d ("近1年"), extractRet d ("近3月"))
| .requestError none => (.msg ("查询失败"), .msg ("查询失败"))
| .otherError => (.msg ("查询失败"), .msg ("查询失败"))

/-- One row of the candidate spreadsheet read by the returns-enrichment
stage: the fund code plus its previously accumulated attributes. -/
structure DfRow where
  code : String
  attrs : List (String × String)
deriving DecidableEq

/-- src/4_revenue.py, query_fund_returns: iterates over every candidate row,
zfills the code, queries the oracle, and attaches the two return cells to the
row.  No branch removes a row. -/
def query_fund_returns (df : List DfRow) (oracle : String → AchFetch) :
    List (DfRow × RetCell × RetCell) :=
  df.map (fun row => (row, processReturns (oracle (zfill6 row.code))))

/-- A lookup that fails on every invocation it gets: the first call raises
KeyError and the compatibility re-fetch raises too, or it raises a network
error and the retry raises too, or it raises some other exception. -/
def alwaysFails : AchFetch → Bool
| .keyError none => true
| .requestError none => true
| .otherError => true
| _ => false

/-- C8: the returns-enrichment stage never removes a candidate: for every
input row list and every lookup behaviour, the output is exactly the input
rows each with the two return cells attached, and a row whose lookup fails on
every invocation receives the sentinel 查询失败 (未找到数据 being the other
sentinel, produced when the compatibility re-fetch succeeds but lacks the
period) in both columns instead of being excluded. -/
theorem returns_enrichment_preserves_candidates (df : List DfRow)
    (oracle : String → AchFetch) :
    ((query_fund_returns df oracle).map Prod.fst = df) ∧
      (query_fund_returns df oracle).length = df.length ∧
      ∀ row ∈ df, alwaysFails (oracle (zfill6 row.code)) = true →
        (row, ((.msg ("查询失败") : RetCell), (.msg ("查询失败") : RetCell))) ∈
          query_fund_returns df oracle := by
  refine ⟨?_, ?_, ?_⟩
  · rw [query_fund_returns, List.map_map]
    exact List.map_id _
  · rw [query_fund_returns, List.length_map]
  · intro row hrow hfail
    have hcells : processReturns (oracle (zfill6 row.code)) =
        ((.msg ("查询失败") : RetCell), (.msg ("查询失败") : RetCell)) := by
      rcases ho : oracle (zfill6 row.code) with d | second | retry | _
      · rw [ho] at hfail
        exact absurd hfail (by simp [alwaysFails])
      · rcases second with _ | d
        · rfl
        · rw [ho] at hfail
          exact absurd hfail (by simp [alwaysFails])
      · rcases retry with _ | d
        · rfl
        · rw [ho] at hfail
          exact absurd hfail (by simp [alwaysFails])
      · rfl
    rw [query_fund_returns]
    exact List.mem_map.mpr ⟨row, hrow, by rw [hcells]⟩

/-- C8 (witness): one candidate whose lookup raises on every invocation is
kept in the output with the sentinel in both return columns. -/
theorem returns_enrichment_preserves_candidates_witness :
    alwaysFails (AchFetch.otherError) = true ∧
      ((⟨"000001", []⟩ : DfRow), ((.msg ("查询失败") : RetCell),
          (.msg ("查询失败") : RetCell))) ∈
        query_fund_returns [⟨"000001", []⟩] (fun _ => AchFetch.otherError) := by
  refine ⟨rfl, ?_⟩
  exact (returns_enrichment_preserves_candidates [⟨"000001", []⟩]
    (fun _ => AchFetch.otherError)).2.2 ⟨"000001", []⟩
    (List.mem_cons_self _ _) rfl

end BondScreen
